import Mathlib

/-!
# Verification of the FIRE retirement simulator

Shallow embedding of the core of the `fire-simulator` repository:

* `fire_simulator.py` — the per-year portfolio state machine (`run_simulation`,
  `simulate_single_year`, income/windfall helpers, emergency-hustle and
  dynamic-spending sub-state-machines);
* `export_data.py` — the mortality model (`_get_qx`, `health_adjusted_mortality`,
  `mortality_improvement_factor`, `calculate_survival_probability`) and the
  outcome classification (`_classify_mortality_outcomes`, Monte-Carlo summary);
* `config.py` — the reference parameter tables (health classes, tech scenarios,
  age-bucketed improvement rates, the Finnish male mortality table);
* `stress_scenarios.py` — the stress-scenario dispatcher (`generate_scenario_returns`).

Money amounts, rates and probabilities (Python floats) are modelled as exact
rationals `ℚ`; ages and year counts as `ℕ`.  Fallible code returns `Except`.
-/

/-! ## Data model (`fire_simulator.py`) -/

/-- One entry of the `income_phases` list: `{start_age, end_age, amount, name}`
(the `name` field is display-only and omitted). -/
structure IncomePhase where
  startAge : ℕ
  endAge : ℕ
  amount : ℚ
deriving DecidableEq, Repr

/-- One entry of the `windfalls` list: `{age, amount, name}` (name omitted). -/
structure Windfall where
  age : ℕ
  amount : ℚ
deriving DecidableEq, Repr

/-- The `emergency_hustle` configuration dict, with all keys present. -/
structure EmergencyHustle where
  enabled : Bool
  triggerAgeMax : ℕ
  portfolioThreshold : ℚ
  extraIncome : ℚ
  duration : ℕ
deriving DecidableEq, Repr

/-- The `spending_rules` configuration dict, with all keys present. -/
structure SpendingRules where
  enabled : Bool
  dropThreshold : ℚ
  recoveryThreshold : ℚ
  reducedSpending : ℚ
  leanSpending : ℚ
  leanAge : ℕ
deriving DecidableEq, Repr

/-- The dynamic-spending state: the Python strings
`'normal'`, `'reduced'`, `'lean'`. -/
inductive SpendState where
  | normal
  | reduced
  | leanMode
deriving DecidableEq, Repr

/-- One entry of the `spending_changes` log:
`{'age', 'from', 'to', 'portfolio'}`. -/
structure SpendChange where
  age : ℕ
  fromState : SpendState
  toState : SpendState
  portfolio : ℚ
deriving DecidableEq, Repr

/-- The parameters of `run_simulation` other than the return sequence. -/
structure SimConfig where
  startingPortfolio : ℚ
  annualExpenses : ℚ
  startAge : ℕ
  inflationRate : ℚ
  incomePhases : List IncomePhase
  windfalls : List Windfall
  emergencyHustle : Option EmergencyHustle
  spendingRules : Option SpendingRules
deriving DecidableEq, Repr

/-- The `SimulationResult` dataclass of `fire_simulator.py`
(the `spending_changes` field is kept as a plain list; the code wraps the
empty list to `None`, which carries the same information). -/
structure SimulationResult where
  portfolioValues : List ℚ
  ages : List ℕ
  ruinAge : Option ℕ
  finalPortfolio : ℚ
  hustleActivated : Bool
  hustleActivationAge : Option ℕ
  spendingReduced : Bool
  reachedLeanMode : Bool
  spendingChanges : List SpendChange
deriving DecidableEq, Repr

/-- The `survived` property: `ruin_age is None`. -/
def SimulationResult.survived (r : SimulationResult) : Bool :=
  r.ruinAge.isNone

/-! ## Income and windfall helpers (`fire_simulator.py`) -/

/-- `get_income_for_age`: amount of the first phase whose inclusive age range
contains `age`, else `0`. -/
def getIncomeForAge (age : ℕ) (incomePhases : List IncomePhase) : ℚ :=
  match incomePhases.find? (fun p => decide (p.startAge ≤ age) && decide (age ≤ p.endAge)) with
  | some p => p.amount
  | none => 0

/-- `get_windfall_for_age`: sum of the amounts of all windfalls scheduled at
exactly `age`. -/
def getWindfallForAge (age : ℕ) (windfalls : List Windfall) : ℚ :=
  ((windfalls.filter (fun w => w.age == age)).map Windfall.amount).sum

/-! ## Single-year update (`simulate_single_year`) -/

/-- `simulate_single_year`: growth first, then a never-negative withdrawal. -/
def simulateSingleYear (portfolio returnRate expenses income : ℚ) : ℚ :=
  let portfolioAfterGrowth := portfolio * (1 + returnRate)
  let netWithdrawal := max 0 (expenses - income)
  portfolioAfterGrowth - netWithdrawal

/-! ## Emergency-hustle sub-state-machine (`run_simulation`, lines 161-176) -/

/-- Result of the per-year emergency-hustle block: the extra hustle income for
this year and the updated (triggered, activation age, countdown) state. -/
structure HustleOut where
  extraIncome : ℚ
  triggered : Bool
  activationAge : Option ℕ
  remaining : ℕ
deriving DecidableEq, Repr

/-- The emergency-hustle block of `run_simulation`: trigger once when
`current_age ≤ trigger_age_max` and `portfolio < starting_portfolio *
portfolio_threshold`, then pay `extra_income * inflation_multiplier` while the
countdown is positive, decrementing it (including in the trigger year). -/
def hustleStep (cfg : SimConfig) (currentAge : ℕ) (portfolio inflMult : ℚ)
    (triggered : Bool) (activationAge : Option ℕ) (remaining : ℕ) : HustleOut :=
  match cfg.emergencyHustle with
  | none => ⟨0, triggered, activationAge, remaining⟩
  | some h =>
    if h.enabled then
      let s :=
        if triggered = false ∧ currentAge ≤ h.triggerAgeMax ∧
            portfolio < cfg.startingPortfolio * h.portfolioThreshold then
          (true, some currentAge, h.duration)
        else
          (triggered, activationAge, remaining)
      if 0 < s.2.2 then
        ⟨h.extraIncome * inflMult, s.1, s.2.1, s.2.2 - 1⟩
      else
        ⟨0, s.1, s.2.1, s.2.2⟩
    else ⟨0, triggered, activationAge, remaining⟩

/-! ## Dynamic-spending sub-state-machine (`run_simulation`, lines 179-222) -/

/-- The spending-level decision (lines 186-197): below the drop threshold go
to `lean` (at or past `lean_age`) or `reduced`; at or above the recovery
threshold return to `normal`; otherwise keep the current state (hysteresis
dead zone). -/
def spendingNewState (rules : SpendingRules) (startingPortfolio : ℚ)
    (currentAge : ℕ) (portfolio : ℚ) (state : SpendState) : SpendState :=
  if portfolio < startingPortfolio * rules.dropThreshold then
    if rules.leanAge ≤ currentAge then SpendState.leanMode else SpendState.reduced
  else if startingPortfolio * rules.recoveryThreshold ≤ portfolio then
    SpendState.normal
  else
    state

/-- The expense level for a spending state (lines 217-222), inflation-scaled. -/
def spendingExpenses (rules : SpendingRules) (annualExpensesBase inflMult : ℚ) :
    SpendState → ℚ
  | SpendState.leanMode => rules.leanSpending * inflMult
  | SpendState.reduced => rules.reducedSpending * inflMult
  | SpendState.normal => annualExpensesBase * inflMult

/-- Result of the per-year dynamic-spending block. -/
structure SpendOut where
  state : SpendState
  changes : List SpendChange
  reduced : Bool
  leanEver : Bool
  expenses : ℚ
deriving DecidableEq, Repr

/-- The dynamic-spending block of `run_simulation` (lines 179-222): evaluated
only when the rules are enabled and the hustle countdown (after this year's
decrement) is `0`; logs state transitions and sets this year's expenses from
the (new) state; otherwise everything, including `expenses`, passes through. -/
def spendingBlock (cfg : SimConfig) (currentAge : ℕ) (hustleRemaining : ℕ)
    (portfolio inflMult : ℚ) (state : SpendState) (changes : List SpendChange)
    (reduced leanEver : Bool) (expenses : ℚ) : SpendOut :=
  match cfg.spendingRules with
  | none => ⟨state, changes, reduced, leanEver, expenses⟩
  | some rules =>
    if rules.enabled = true ∧ hustleRemaining = 0 then
      let newState := spendingNewState rules cfg.startingPortfolio currentAge portfolio state
      let changes2 :=
        if newState ≠ state then
          changes ++ [⟨currentAge, state, newState, portfolio⟩]
        else changes
      let reduced2 := reduced || (newState == SpendState.reduced) || (newState == SpendState.leanMode)
      let leanEver2 := leanEver || (newState == SpendState.leanMode)
      ⟨newState, changes2, reduced2, leanEver2,
        spendingExpenses rules cfg.annualExpenses inflMult newState⟩
    else ⟨state, changes, reduced, leanEver, expenses⟩

/-! ## The simulation loop (`run_simulation`) -/

/-- Lines 153-155: `if windfall > 0: portfolio += windfall`. -/
def applyWindfall (portfolio windfall : ℚ) : ℚ :=
  if 0 < windfall then portfolio + windfall else portfolio

/-- The mutable loop state of `run_simulation`. -/
structure SimState where
  portfolio : ℚ
  expenses : ℚ
  inflationMultiplier : ℚ
  hustleTriggered : Bool
  hustleActivationAge : Option ℕ
  hustleYearsRemaining : ℕ
  spendingState : SpendState
  spendingChanges : List SpendChange
  spendingReduced : Bool
  leanEver : Bool
  portfolioValues : List ℚ
  ages : List ℕ
  ruinAge : Option ℕ
deriving DecidableEq, Repr

/-- The body of one loop year of `run_simulation` (lines 149-229): windfall,
income, hustle block, spending block, single-year update and recording.  The
resulting state is the loop state just after `ages.append(current_age)`,
before the ruin check and before the end-of-year inflation compounding. -/
def yearState (cfg : SimConfig) (yearIndex : ℕ) (r : ℚ) (st : SimState) : SimState :=
  let currentAge := cfg.startAge + yearIndex + 1
  let windfall := getWindfallForAge currentAge cfg.windfalls
  let p0 := applyWindfall st.portfolio windfall
  let income := getIncomeForAge currentAge cfg.incomePhases * st.inflationMultiplier
  let h := hustleStep cfg currentAge p0 st.inflationMultiplier
    st.hustleTriggered st.hustleActivationAge st.hustleYearsRemaining
  let sp := spendingBlock cfg currentAge h.remaining p0 st.inflationMultiplier
    st.spendingState st.spendingChanges st.spendingReduced st.leanEver st.expenses
  let p1 := simulateSingleYear p0 r sp.expenses (income + h.extraIncome)
  { portfolio := p1, expenses := sp.expenses,
    inflationMultiplier := st.inflationMultiplier,
    hustleTriggered := h.triggered, hustleActivationAge := h.activationAge,
    hustleYearsRemaining := h.remaining,
    spendingState := sp.state, spendingChanges := sp.changes,
    spendingReduced := sp.reduced, leanEver := sp.leanEver,
    portfolioValues := st.portfolioValues ++ [p1],
    ages := st.ages ++ [currentAge], ruinAge := none }

/-- The `for year_index, return_rate in enumerate(returns_sequence)` loop of
`run_simulation` (lines 149-242): run the year body, then check for ruin
(lines 232-238: set `ruin_age`, fill the remaining years with zeros and
consecutive ages, and break), otherwise compound inflation (lines 241-242)
and continue. -/
def simLoop (cfg : SimConfig) : ℕ → List ℚ → SimState → SimState
  | _, [], st => st
  | yearIndex, r :: rest, st =>
    let st1 := yearState cfg yearIndex r st
    if st1.portfolio ≤ 0 then
      { st1 with
          portfolioValues := st1.portfolioValues ++ List.replicate rest.length 0,
          ages := st1.ages ++
            (List.range rest.length).map (fun i => cfg.startAge + yearIndex + 1 + 1 + i),
          ruinAge := some (cfg.startAge + yearIndex + 1) }
    else
      simLoop cfg (yearIndex + 1) rest
        { st1 with
            expenses := st1.expenses * (1 + cfg.inflationRate),
            inflationMultiplier := st1.inflationMultiplier * (1 + cfg.inflationRate) }

/-- The year body records exactly one new portfolio value: its own
`portfolio` field. -/
lemma yearState_portfolioValues (cfg : SimConfig) (yi : ℕ) (r : ℚ) (st : SimState) :
    (yearState cfg yi r st).portfolioValues =
      st.portfolioValues ++ [(yearState cfg yi r st).portfolio] := rfl

/-- The year body records exactly one new age: the current age. -/
lemma yearState_ages (cfg : SimConfig) (yi : ℕ) (r : ℚ) (st : SimState) :
    (yearState cfg yi r st).ages = st.ages ++ [cfg.startAge + yi + 1] := rfl

/-- The year body leaves `ruin_age` untouched (`None`). -/
lemma yearState_ruinAge (cfg : SimConfig) (yi : ℕ) (r : ℚ) (st : SimState) :
    (yearState cfg yi r st).ruinAge = none := rfl

/-- The initial loop state of `run_simulation` (lines 124-146). -/
def initialState (cfg : SimConfig) : SimState :=
  { portfolio := cfg.startingPortfolio, expenses := cfg.annualExpenses,
    inflationMultiplier := 1,
    hustleTriggered := false, hustleActivationAge := none, hustleYearsRemaining := 0,
    spendingState := SpendState.normal, spendingChanges := [],
    spendingReduced := false, leanEver := false,
    portfolioValues := [cfg.startingPortfolio], ages := [cfg.startAge],
    ruinAge := none }

/-- `run_simulation`: run the loop and package the `SimulationResult`. -/
def runSimulation (cfg : SimConfig) (returnsSequence : List ℚ) : SimulationResult :=
  let st := simLoop cfg 0 returnsSequence (initialState cfg)
  { portfolioValues := st.portfolioValues, ages := st.ages, ruinAge := st.ruinAge,
    finalPortfolio := st.portfolioValues.getLastD 0,
    hustleActivated := st.hustleTriggered,
    hustleActivationAge := st.hustleActivationAge,
    spendingReduced := st.spendingReduced,
    reachedLeanMode := st.leanEver,
    spendingChanges := st.spendingChanges }

/-! ## Reference tables (`config.py`) -/

/-- `FINNISH_MALE_MORTALITY` values in tenths (the table stores one-decimal
per-1000 rates; `3.8` is stored here as `38`).  Ages outside 47-110 are not
keys of the dict (`0` stands for "absent"). -/
def mortalityTableTenths : ℕ → ℕ
  | 47 => 38
  | 48 => 41
  | 49 => 44
  | 50 => 48
  | 51 => 52
  | 52 => 57
  | 53 => 62
  | 54 => 68
  | 55 => 75
  | 56 => 83
  | 57 => 92
  | 58 => 102
  | 59 => 113
  | 60 => 125
  | 61 => 139
  | 62 => 154
  | 63 => 171
  | 64 => 190
  | 65 => 211
  | 66 => 234
  | 67 => 260
  | 68 => 289
  | 69 => 321
  | 70 => 357
  | 71 => 397
  | 72 => 442
  | 73 => 492
  | 74 => 548
  | 75 => 611
  | 76 => 681
  | 77 => 759
  | 78 => 846
  | 79 => 943
  | 80 => 1051
  | 81 => 1171
  | 82 => 1305
  | 83 => 1454
  | 84 => 1620
  | 85 => 1805
  | 86 => 2010
  | 87 => 2238
  | 88 => 2492
  | 89 => 2775
  | 90 => 3089
  | 91 => 3438
  | 92 => 3824
  | 93 => 4252
  | 94 => 4725
  | 95 => 5250
  | 96 => 5500
  | 97 => 5720
  | 98 => 5920
  | 99 => 6100
  | 100 => 6250
  | 101 => 6380
  | 102 => 6500
  | 103 => 6600
  | 104 => 6680
  | 105 => 6750
  | 106 => 6800
  | 107 => 6830
  | 108 => 6850
  | 109 => 6850
  | 110 => 6850
  | _ => 0

/-- The `FINNISH_MALE_MORTALITY` dict of `config.py`: qx per 1000 for ages
47-110, no other keys (`min(keys) = 47`, `max(keys) = 110`). -/
def FINNISH_MALE_MORTALITY (age : ℕ) : Option ℚ :=
  if 47 ≤ age ∧ age ≤ 110 then some ((mortalityTableTenths age : ℚ) / 10) else none

/-- One entry of `HEALTH_CLASS_PARAMS` (the `description` string is omitted). -/
structure HealthParams where
  baseRatio : ℚ
  convergenceRatio : ℚ
  convergenceAge : ℕ
deriving DecidableEq, Repr

/-- `HEALTH_CLASS_PARAMS.get(health_class, HEALTH_CLASS_PARAMS['average'])`:
the dict lookup with fallback to the `'average'` entry for unknown keys. -/
def HEALTH_CLASS_PARAMS (healthClass : String) : HealthParams :=
  if healthClass = "excellent" then ⟨3/10, 1, 100⟩
  else if healthClass = "impaired" then ⟨3/2, 1, 100⟩
  else ⟨1, 1, 100⟩

/-- One entry of `TECH_SCENARIO_PARAMS` (description omitted). -/
structure TechParams where
  rateMultiplier : ℚ
deriving DecidableEq, Repr

/-- `TECH_SCENARIO_PARAMS.get(scenario, TECH_SCENARIO_PARAMS['moderate'])`:
dict lookup with fallback to the `'moderate'` entry for unknown keys. -/
def TECH_SCENARIO_PARAMS (scenario : String) : TechParams :=
  if scenario = "conservative" then ⟨1/2⟩
  else if scenario = "optimistic" then ⟨3/2⟩
  else ⟨1⟩

/-- `AGE_IMPROVEMENT_RATES`: age-bucketed annual improvement rates, in the
dict's iteration order. -/
def AGE_IMPROVEMENT_RATES : List ((ℕ × ℕ) × ℚ) :=
  [((0, 65), 15/1000), ((65, 85), 12/1000), ((85, 100), 6/1000), ((100, 150), 3/1000)]

/-! ## Mortality model (`export_data.py`) -/

/-- `health_adjusted_mortality`: scale the base qx by a ratio interpolating
linearly from `base_ratio` at age 45 to `convergence_ratio` at
`convergence_age`, clamped outside that range. -/
def healthAdjustedMortality (age : ℕ) (baseQx : ℚ) (healthClass : String) : ℚ :=
  let params := HEALTH_CLASS_PARAMS healthClass
  let baseAge : ℕ := 45
  let ratio :=
    if age ≤ baseAge then params.baseRatio
    else if params.convergenceAge ≤ age then params.convergenceRatio
    else
      params.baseRatio + (params.convergenceRatio - params.baseRatio) *
        (((age : ℚ) - (baseAge : ℚ)) / ((params.convergenceAge : ℚ) - (baseAge : ℚ)))
  baseQx * ratio

/-- The `base_rate` loop of `mortality_improvement_factor`: the first bucket
`(age_low, age_high)` with `age_low ≤ age < age_high` wins; the default is
`0.012` when no bucket matches. -/
def baseImprovementRate (age : ℕ) : ℚ :=
  match AGE_IMPROVEMENT_RATES.find? (fun b => decide (b.1.1 ≤ age) && decide (age < b.1.2)) with
  | some b => b.2
  | none => 12/1000

/-- `mortality_improvement_factor`: `(1 - rate)^years_in_future`, where `rate`
is the age-bucketed base rate times the scenario multiplier; `1` at time
zero. -/
def mortalityImprovementFactor (age : ℕ) (yearsInFuture : ℕ) (scenario : String) : ℚ :=
  if yearsInFuture = 0 then 1
  else
    let rate := baseImprovementRate age * (TECH_SCENARIO_PARAMS scenario).rateMultiplier
    (1 - rate) ^ yearsInFuture

/-- The table lookup of `_get_qx`: the dict entry when present; the entry at
the minimum key (47) below the table; `500` above it. -/
def getBaseQx (age : ℕ) : ℚ :=
  match FINNISH_MALE_MORTALITY age with
  | some q => q
  | none => if age < 47 then (mortalityTableTenths 47 : ℚ) / 10 else 500

/-- `_get_qx`: base table rate, health-adjusted, then scaled by the
technology-improvement factor (still per 1000). -/
def getQx (age : ℕ) (healthClass techScenario : String) (yearsFromRetirement : ℕ) : ℚ :=
  let baseQx := getBaseQx age
  let adjustedQx := healthAdjustedMortality age baseQx healthClass
  adjustedQx * mortalityImprovementFactor age yearsFromRetirement techScenario

/-- `calculate_survival_probability`: the product of `1 - qx/1000` over ages
`start_age .. end_age` inclusive, with `years_from_retirement = age -
start_age`. -/
def calculateSurvivalProbability (startAge endAge : ℕ) (healthClass techScenario : String) : ℚ :=
  ((List.range (endAge + 1 - startAge)).map
    (fun k => 1 - getQx (startAge + k) healthClass techScenario k / 1000)).prod

/-! ## Outcome classification (`export_data.py`, `_classify_mortality_outcomes`
and the `run_monte_carlo` summary) -/

/-- The three outcome categories. -/
inductive Outcome where
  | survivedToEnd
  | diedWithMoney
  | ranOutOfMoney
deriving DecidableEq, Repr

/-- The per-trial branch of `_classify_mortality_outcomes` (mortality
enabled): a survived trial is `survived_to_end` with a null death age and
`died_with_money` otherwise; a ruined trial is `died_with_money` exactly when
the death age is non-null and strictly below the ruin age, else
`ran_out_of_money`. -/
def classifyTrial (r : SimulationResult) (deathAge : Option ℕ) : Outcome :=
  match r.ruinAge with
  | none =>
    match deathAge with
    | none => Outcome.survivedToEnd
    | some _ => Outcome.diedWithMoney
  | some ruin =>
    match deathAge with
    | some d => if d < ruin then Outcome.diedWithMoney else Outcome.ranOutOfMoney
    | none => Outcome.ranOutOfMoney

/-- The outcome counts and rates returned by `_classify_mortality_outcomes`
(the death-age statistics not needed by any claim are omitted). -/
structure MortalityOutcomes where
  survivedToEnd : ℕ
  diedWithMoney : ℕ
  ranOutOfMoney : ℕ
  realFailureRate : ℚ
deriving DecidableEq, Repr

/-- `_classify_mortality_outcomes`: with mortality enabled, count each
(result, death age) pair by its `classifyTrial` outcome; with mortality
disabled, every ruined trial is `ran_out_of_money` and every survived trial
`survived_to_end`.  `real_failure_rate = ran_out_of_money / num_simulations`
with `num_simulations = len(results)`. -/
def classifyMortalityOutcomes (results : List SimulationResult)
    (deathAges : List (Option ℕ)) (mortalityEnabled : Bool) : MortalityOutcomes :=
  let numSimulations := results.length
  let failures := results.filter (fun r => !r.survived)
  let survivedCount := numSimulations - failures.length
  if mortalityEnabled then
    let pairs := results.zip deathAges
    let s := pairs.countP (fun p => classifyTrial p.1 p.2 == Outcome.survivedToEnd)
    let d := pairs.countP (fun p => classifyTrial p.1 p.2 == Outcome.diedWithMoney)
    let ro := pairs.countP (fun p => classifyTrial p.1 p.2 == Outcome.ranOutOfMoney)
    ⟨s, d, ro, (ro : ℚ) / (numSimulations : ℚ)⟩
  else
    ⟨survivedCount, 0, failures.length, (failures.length : ℚ) / (numSimulations : ℚ)⟩

/-- The summary fields of `run_monte_carlo` needed by the claims:
`success_rate = survived_count / num_simulations` and
`failure_count = len(failures)`, with one simulation result per generated
return sequence (`num_simulations = len(results)`). -/
structure McSummary where
  successRate : ℚ
  failureCount : ℕ
deriving DecidableEq, Repr

/-- The `success_rate` / `failure_count` computation of `run_monte_carlo`
(lines 708-714). -/
def monteCarloSummary (results : List SimulationResult) : McSummary :=
  let survivedCount := (results.filter (fun r => r.survived)).length
  let failures := results.filter (fun r => !r.survived)
  ⟨(survivedCount : ℚ) / (results.length : ℚ), failures.length⟩

/-! ## Stress-scenario dispatch (`stress_scenarios.py`) -/

/-- The eight scripted stress scenarios.  Their generator bodies draw
pseudo-random Gaussian phases and are represented here by their tags; the
claims only concern the dispatcher's selection and error behaviour, which is
modelled from the source. -/
inductive StressScenario where
  | japanLostDecades
  | sequenceRiskEarlyCrash
  | climateTransitionShock
  | stagflation1970s
  | greatDepression
  | secularStagnation
  | risingRatesRegime
  | euroCrisisFinland
deriving DecidableEq, Repr

/-- The `generators` dict of `generate_scenario_returns`, keyed by scenario
id. -/
def scenarioGenerators : List (String × StressScenario) :=
  [("japan_lost_decades", StressScenario.japanLostDecades),
   ("sequence_risk_early_crash", StressScenario.sequenceRiskEarlyCrash),
   ("climate_transition_shock", StressScenario.climateTransitionShock),
   ("stagflation_1970s", StressScenario.stagflation1970s),
   ("great_depression", StressScenario.greatDepression),
   ("secular_stagnation", StressScenario.secularStagnation),
   ("rising_rates_regime", StressScenario.risingRatesRegime),
   ("euro_crisis_finland", StressScenario.euroCrisisFinland)]

/-- The known scenario ids (the keys of the generators dict). -/
def knownScenarioIds : List String := scenarioGenerators.map Prod.fst

/-- `generate_scenario_returns`: look the id up in the generators dict and
raise `ValueError` when it is absent; on success run the selected generator
(whose random output is abstracted to its tag). -/
def generateScenarioReturns (scenarioId : String) : Except String StressScenario :=
  match scenarioGenerators.lookup scenarioId with
  | some g => Except.ok g
  | none => Except.error "Unknown scenario"

/-! ## General helper lemmas -/

/-- `getLastD` of a nonempty list is its entry at index `length - 1`. -/
lemma getLastD_eq_getD_length_sub_one (l : List ℚ) (d : ℚ) (h : l ≠ []) :
    l.getLastD d = l.getD (l.length - 1) d := by
  induction l with
  | nil => simp at h
  | cons x xs ih =>
    cases xs with
    | nil => simp
    | cons y ys => simpa using ih (by simp)

/-- Filtering a list by a predicate and by its negation partitions it. -/
lemma length_filter_add_length_filter_not (l : List SimulationResult)
    (p : SimulationResult → Bool) :
    (l.filter p).length + (l.filter (fun x => !p x)).length = l.length := by
  induction l with
  | nil => rfl
  | cons x xs ih =>
    by_cases h : p x = true <;> simp [List.filter_cons, h] <;> omega

/-! ## Claim C5 -/

/-- **C5** Single-year update rule: `simulate_single_year` computes exactly
`portfolio * (1 + return_rate) - max 0 (expenses - income)`, with growth
applied to the pre-withdrawal portfolio; the withdrawal is never negative, so
when income covers expenses the portfolio just grows; and each loop year of
`run_simulation` records as its new portfolio value the result of
`simulate_single_year` applied to the post-windfall portfolio, the effective
expenses from the spending block, and income plus hustle income. -/
theorem C5_single_year_update :
    (∀ p r e i : ℚ, simulateSingleYear p r e i = p * (1 + r) - max 0 (e - i)) ∧
    (∀ p r e i : ℚ, e ≤ i → simulateSingleYear p r e i = p * (1 + r)) ∧
    (∀ (cfg : SimConfig) (yearIndex : ℕ) (r : ℚ) (st : SimState),
      (simLoop cfg yearIndex [r] st).portfolioValues.getLastD 0 =
        simulateSingleYear
          (applyWindfall st.portfolio
            (getWindfallForAge (cfg.startAge + yearIndex + 1) cfg.windfalls))
          r
          (spendingBlock cfg (cfg.startAge + yearIndex + 1)
            (hustleStep cfg (cfg.startAge + yearIndex + 1)
              (applyWindfall st.portfolio
                (getWindfallForAge (cfg.startAge + yearIndex + 1) cfg.windfalls))
              st.inflationMultiplier st.hustleTriggered st.hustleActivationAge
              st.hustleYearsRemaining).remaining
            (applyWindfall st.portfolio
              (getWindfallForAge (cfg.startAge + yearIndex + 1) cfg.windfalls))
            st.inflationMultiplier st.spendingState st.spendingChanges
            st.spendingReduced st.leanEver st.expenses).expenses
          (getIncomeForAge (cfg.startAge + yearIndex + 1) cfg.incomePhases *
              st.inflationMultiplier +
            (hustleStep cfg (cfg.startAge + yearIndex + 1)
              (applyWindfall st.portfolio
                (getWindfallForAge (cfg.startAge + yearIndex + 1) cfg.windfalls))
              st.inflationMultiplier st.hustleTriggered st.hustleActivationAge
              st.hustleYearsRemaining).extraIncome)) := by
  refine ⟨fun p r e i => rfl, fun p r e i h => ?_, fun cfg yearIndex r st => ?_⟩
  · simp only [simulateSingleYear]
    have : e - i ≤ 0 := by linarith
    rw [max_eq_left this]
    ring
  · simp only [simLoop]
    split <;>
      simp [yearState_portfolioValues, List.getLast?_concat, yearState]

/-- **C5 witness**: with expenses `5` fully covered by income `7`, a year at
return rate `1/10` just grows the portfolio `100` to `110`. -/
theorem C5_single_year_update_witness :
    (5 : ℚ) ≤ 7 ∧ simulateSingleYear 100 (1/10) 5 7 = 100 * (1 + 1/10) :=
  ⟨by norm_num, C5_single_year_update.2.1 100 (1/10) 5 7 (by norm_num)⟩

/-! ## Claim C6 -/

/-- **C6** Spending-rule hysteresis: whenever the portfolio lies in the dead
zone (at or above `starting_portfolio * drop_threshold` and strictly below
`starting_portfolio * recovery_threshold`), the spending-level decision keeps
the current state; and the decision returns `normal` from a non-`normal`
state only when the portfolio is at or above
`starting_portfolio * recovery_threshold`. -/
theorem C6_spending_hysteresis (rules : SpendingRules) (startingPortfolio : ℚ)
    (currentAge : ℕ) (portfolio : ℚ) (state : SpendState) :
    (startingPortfolio * rules.dropThreshold ≤ portfolio →
      portfolio < startingPortfolio * rules.recoveryThreshold →
      spendingNewState rules startingPortfolio currentAge portfolio state = state) ∧
    (spendingNewState rules startingPortfolio currentAge portfolio state = SpendState.normal →
      state ≠ SpendState.normal →
      startingPortfolio * rules.recoveryThreshold ≤ portfolio) := by
  constructor
  · intro hd hr
    unfold spendingNewState
    rw [if_neg (not_lt.mpr hd), if_neg (not_le.mpr hr)]
  · intro hn hst
    unfold spendingNewState at hn
    by_cases h1 : portfolio < startingPortfolio * rules.dropThreshold
    · rw [if_pos h1] at hn
      split at hn <;> exact absurd hn (by simp)
    · rw [if_neg h1] at hn
      by_cases h2 : startingPortfolio * rules.recoveryThreshold ≤ portfolio
      · exact h2
      · rw [if_neg h2] at hn
        exact absurd hn hst

/-- **C6 witness**: with thresholds `50` and `60` of a starting portfolio
`100` (drop `1/2`, recovery `3/5`), a portfolio of `55` in state `reduced`
stays `reduced`. -/
theorem C6_spending_hysteresis_witness :
    ((100 : ℚ) * (1/2) ≤ 55 ∧ (55 : ℚ) < 100 * (3/5)) ∧
    spendingNewState ⟨true, 1/2, 3/5, 25000, 17000, 60⟩ 100 50 55 SpendState.reduced =
      SpendState.reduced :=
  ⟨⟨by norm_num, by norm_num⟩,
    (C6_spending_hysteresis ⟨true, 1/2, 3/5, 25000, 17000, 60⟩ 100 50 55
      SpendState.reduced).1 (by norm_num) (by norm_num)⟩

/-! ## Claim C8 -/

/-- A key absent from the generators dict looks up to `none`. -/
lemma lookup_eq_none_of_forall_ne (sid : String) (l : List (String × StressScenario))
    (h : ∀ p ∈ l, p.1 ≠ sid) : l.lookup sid = none := by
  induction l with
  | nil => rfl
  | cons x xs ih =>
    have hx : x.1 ≠ sid := h x (by simp)
    have hbeq : (sid == x.1) = false := beq_eq_false_iff_ne.mpr (Ne.symm hx)
    simp only [List.lookup, hbeq]
    exact ih fun p hp => h p (by simp [hp])

/-- **C8** Unknown-enum handling: a health class outside
`{excellent, average, impaired}` behaves exactly as `"average"`, a tech
scenario outside `{conservative, moderate, optimistic}` behaves exactly as
`"moderate"` (no error in either case), whereas `generate_scenario_returns`
raises exactly when the scenario id is not one of the eight known ids. -/
theorem C8_unknown_enum_handling :
    (∀ hc : String, hc ≠ "excellent" → hc ≠ "average" → hc ≠ "impaired" →
      ∀ (age : ℕ) (q : ℚ),
        healthAdjustedMortality age q hc = healthAdjustedMortality age q "average") ∧
    (∀ ts : String, ts ≠ "conservative" → ts ≠ "moderate" → ts ≠ "optimistic" →
      ∀ (age y : ℕ),
        mortalityImprovementFactor age y ts = mortalityImprovementFactor age y "moderate") ∧
    (∀ sid : String,
      (∃ e, generateScenarioReturns sid = Except.error e) ↔ sid ∉ knownScenarioIds) := by
  refine ⟨fun hc h1 h2 h3 age q => ?_, fun ts h1 h2 h3 age y => ?_, fun sid => ?_⟩
  · have : HEALTH_CLASS_PARAMS hc = HEALTH_CLASS_PARAMS "average" := by
      simp [HEALTH_CLASS_PARAMS, h1, h3]
    simp [healthAdjustedMortality, this]
  · have : TECH_SCENARIO_PARAMS ts = TECH_SCENARIO_PARAMS "moderate" := by
      simp [TECH_SCENARIO_PARAMS, h1, h3]
    simp [mortalityImprovementFactor, this]
  · constructor
    · rintro ⟨e, he⟩ hmem
      simp only [knownScenarioIds, scenarioGenerators, List.map, List.mem_cons,
        List.not_mem_nil, or_false] at hmem
      rcases hmem with h | h | h | h | h | h | h | h <;> subst h <;>
        simp [generateScenarioReturns, scenarioGenerators, List.lookup] at he
    · intro hmem
      refine ⟨"Unknown scenario", ?_⟩
      have hnone : scenarioGenerators.lookup sid = none := by
        refine lookup_eq_none_of_forall_ne sid _ fun p hp => ?_
        intro hps
        exact hmem (by
          subst hps
          exact List.mem_map_of_mem Prod.fst hp)
      simp [generateScenarioReturns, hnone]

/-- **C8 witness**: the unknown strings `"superb"` and `"wild"` fall back to
`"average"` / `"moderate"` at age 50, and the id `"zzz"` is rejected while
`"japan_lost_decades"` is accepted. -/
theorem C8_unknown_enum_handling_witness :
    healthAdjustedMortality 50 100 "superb" = healthAdjustedMortality 50 100 "average" ∧
    mortalityImprovementFactor 50 3 "wild" = mortalityImprovementFactor 50 3 "moderate" ∧
    ((∃ e, generateScenarioReturns "zzz" = Except.error e) ↔ "zzz" ∉ knownScenarioIds) :=
  ⟨C8_unknown_enum_handling.1 "superb" (by simp) (by simp) (by simp) 50 100,
   C8_unknown_enum_handling.2.1 "wild" (by simp) (by simp) (by simp) 50 3,
   C8_unknown_enum_handling.2.2 "zzz"⟩

/-! ## Claim C2 -/

/-- Each (result, death age) pair falls in exactly one outcome category, so
the three `countP` counts partition the list. -/
lemma countP_outcomes_partition (l : List (SimulationResult × Option ℕ)) :
    l.countP (fun p => classifyTrial p.1 p.2 == Outcome.survivedToEnd) +
      l.countP (fun p => classifyTrial p.1 p.2 == Outcome.diedWithMoney) +
      l.countP (fun p => classifyTrial p.1 p.2 == Outcome.ranOutOfMoney) = l.length := by
  induction l with
  | nil => rfl
  | cons x xs ih =>
    simp only [List.countP_cons, List.length_cons]
    cases hc : classifyTrial x.1 x.2 <;> simp [hc] <;> omega

/-- **C2** Mortality outcome classification: with mortality enabled and one
death age per trial, the three counts `survived_to_end`, `died_with_money`,
`ran_out_of_money` sum to the number of trials, and a ruined trial is
classified `died_with_money` exactly when its death age is non-null and
strictly below its ruin age, `ran_out_of_money` exactly when the death age is
null or at least the ruin age. -/
theorem C2_outcome_classification (results : List SimulationResult)
    (deathAges : List (Option ℕ)) (hlen : results.length = deathAges.length) :
    ((classifyMortalityOutcomes results deathAges true).survivedToEnd +
        (classifyMortalityOutcomes results deathAges true).diedWithMoney +
        (classifyMortalityOutcomes results deathAges true).ranOutOfMoney =
      results.length) ∧
    (∀ (r : SimulationResult) (da : Option ℕ) (a : ℕ), r.ruinAge = some a →
      ((classifyTrial r da = Outcome.diedWithMoney ↔ ∃ d, da = some d ∧ d < a) ∧
       (classifyTrial r da = Outcome.ranOutOfMoney ↔
          da = none ∨ ∃ d, da = some d ∧ a ≤ d))) := by
  constructor
  · have hzip : (results.zip deathAges).length = results.length := by
      rw [List.length_zip, hlen, Nat.min_self]
    simpa [classifyMortalityOutcomes, hzip] using
      countP_outcomes_partition (results.zip deathAges)
  · intro r da a hruin
    cases da with
    | none => simp [classifyTrial, hruin]
    | some d =>
      by_cases hd : d < a
      · simp [classifyTrial, hruin, hd]
        try omega
      · simp [classifyTrial, hruin, hd]
        try omega

/-- A concrete ruined one-trial batch for the C2 witness. -/
def ruinedTrial : SimulationResult :=
  ⟨[100, -5], [60, 61], some 61, -5, false, none, false, false, []⟩

/-- **C2 witness**: a single ruined trial whose death age `61` equals its
ruin age `61` is classified `ran_out_of_money`, and the counts sum to `1`. -/
theorem C2_outcome_classification_witness :
    ((classifyMortalityOutcomes [ruinedTrial] [some 61] true).survivedToEnd +
        (classifyMortalityOutcomes [ruinedTrial] [some 61] true).diedWithMoney +
        (classifyMortalityOutcomes [ruinedTrial] [some 61] true).ranOutOfMoney = 1) ∧
    (classifyTrial ruinedTrial (some 61) = Outcome.ranOutOfMoney ↔
      (some 61 : Option ℕ) = none ∨ ∃ d, (some 61 : Option ℕ) = some d ∧ 61 ≤ d) :=
  ⟨(C2_outcome_classification [ruinedTrial] [some 61] (by simp)).1,
   ((C2_outcome_classification [ruinedTrial] [some 61] (by simp)).2
      ruinedTrial (some 61) 61 (by simp [ruinedTrial])).2⟩

/-! ## Claim C4 -/

/-- **C4** With mortality disabled, `ran_out_of_money` equals the summary's
`failure_count`, and `real_failure_rate` equals `1 - success_rate` exactly. -/
theorem C4_mortality_disabled_rates (results : List SimulationResult)
    (deathAges : List (Option ℕ)) (hne : results ≠ []) :
    ((classifyMortalityOutcomes results deathAges false).ranOutOfMoney =
      (monteCarloSummary results).failureCount) ∧
    ((classifyMortalityOutcomes results deathAges false).realFailureRate =
      1 - (monteCarloSummary results).successRate) := by
  refine ⟨rfl, ?_⟩
  have hpart :
      (results.filter (fun r => r.survived)).length +
        (results.filter (fun r => !r.survived)).length = results.length :=
    length_filter_add_length_filter_not results (fun r => r.survived)
  have hn : ((results.length : ℚ)) ≠ 0 := by
    have : 0 < results.length := List.length_pos.mpr hne
    exact_mod_cast Nat.pos_iff_ne_zero.mp this
  simp only [classifyMortalityOutcomes, monteCarloSummary, Bool.false_eq_true, if_false]
  field_simp
  have : ((results.filter (fun r => !r.survived)).length : ℚ) +
      ((results.filter (fun r => r.survived)).length : ℚ) = (results.length : ℚ) := by
    exact_mod_cast by omega
  linarith

/-- A concrete survived one-trial batch for the C4 witness. -/
def survivedTrial : SimulationResult :=
  ⟨[100, 104], [60, 61], none, 104, false, none, false, false, []⟩

/-- **C4 witness**: on a one-trial batch with mortality disabled, both
identities hold (`0 = 0` failures and `0 = 1 - 1` rates). -/
theorem C4_mortality_disabled_rates_witness :
    ((classifyMortalityOutcomes [survivedTrial] [] false).ranOutOfMoney =
      (monteCarloSummary [survivedTrial]).failureCount) ∧
    ((classifyMortalityOutcomes [survivedTrial] [] false).realFailureRate =
      1 - (monteCarloSummary [survivedTrial]).successRate) :=
  C4_mortality_disabled_rates [survivedTrial] [] (by simp)

/-! ## Trajectory shape (shared by claims C3 and C10) -/

/-- `getD` of an append, inside the left part. -/
lemma getD_append_of_lt (l1 l2 : List ℚ) (i : ℕ) (h : i < l1.length) :
    (l1 ++ l2).getD i 0 = l1.getD i 0 := by
  simp [List.getD_eq_getElem?_getD, List.getElem?_append, h]

/-- `getD` of an append, inside the right part. -/
lemma getD_append_of_le (l1 l2 : List ℚ) (i : ℕ) (h : l1.length ≤ i) :
    (l1 ++ l2).getD i 0 = l2.getD (i - l1.length) 0 := by
  simp [List.getD_eq_getElem?_getD, List.getElem?_append_right h]

/-- `getD` of a replicated zero list. -/
lemma getD_replicate_zero (n i : ℕ) (h : i < n) :
    (List.replicate n (0 : ℚ)).getD i 0 = 0 := by
  simp [List.getD_eq_getElem?_getD, List.getElem?_replicate, h]

/-- Splitting a mapped `range` around position `yi + 1`. -/
lemma range_map_split (c yi m : ℕ) :
    (List.range (yi + 1 + (m + 1))).map (fun i => c + i) =
      ((List.range (yi + 1)).map (fun i => c + i) ++ [c + yi + 1]) ++
        (List.range m).map (fun i => c + yi + 1 + 1 + i) := by
  have h : yi + 1 + (m + 1) = yi + 1 + 1 + m := by omega
  rw [h, List.range_add, List.map_append, List.map_map]
  congr 1
  · rw [List.range_succ, List.map_append]
    simp [Nat.add_assoc]
  · have hfun : ((fun i => c + i) ∘ fun x => yi + 1 + 1 + x) =
        (fun i => c + yi + 1 + 1 + i) := by
      funext x
      simp [Function.comp]
      omega
    rw [hfun]

/-- Shape invariant of the simulation loop: starting from a no-ruin state
with `yearIndex + 1` recorded values and ages `startAge .. startAge +
yearIndex`, the loop always returns exactly one value and one age per
remaining year (zero-filling on ruin included), the ages keep incrementing by
one, and on ruin the ruin age lies in the remaining-year range, the value
recorded at the ruin age is `≤ 0`, and every later value is `0`. -/
lemma simLoop_shape (cfg : SimConfig) :
    ∀ (rs : List ℚ) (yi : ℕ) (st : SimState),
      st.portfolioValues.length = yi + 1 →
      st.ages = (List.range (yi + 1)).map (fun i => cfg.startAge + i) →
      st.ruinAge = none →
      ((simLoop cfg yi rs st).portfolioValues.length = yi + 1 + rs.length ∧
       (simLoop cfg yi rs st).ages =
         (List.range (yi + 1 + rs.length)).map (fun i => cfg.startAge + i) ∧
       (∀ a, (simLoop cfg yi rs st).ruinAge = some a →
          cfg.startAge + yi + 1 ≤ a ∧ a ≤ cfg.startAge + yi + rs.length ∧
          (simLoop cfg yi rs st).portfolioValues.getD (a - cfg.startAge) 0 ≤ 0 ∧
          (∀ i, i < yi + 1 + rs.length → a - cfg.startAge < i →
            (simLoop cfg yi rs st).portfolioValues.getD i 0 = 0))) := by
  intro rs
  induction rs with
  | nil =>
    intro yi st h1 h2 h3
    refine ⟨by simpa using h1, by simpa using h2, fun a ha => ?_⟩
    rw [show simLoop cfg yi [] st = st from rfl, h3] at ha
    cases ha
  | cons r rest ih =>
    intro yi st h1 h2 h3
    simp only [simLoop, List.length_cons]
    split
    · -- ruin this year: the state is returned with zero-fill and a break
      rename_i hp1
      have hv1 : (yearState cfg yi r st).portfolioValues.length = yi + 1 + 1 := by
        rw [yearState_portfolioValues]
        simp [h1]
      refine ⟨?_, ?_, fun a ha => ?_⟩
      · simp only [List.length_append, hv1, List.length_replicate]
        omega
      · show (yearState cfg yi r st).ages ++ _ = _
        rw [yearState_ages, h2, range_map_split]
      · have haeq : a = cfg.startAge + yi + 1 := by
          cases ha
          rfl
        subst haeq
        have hidx : cfg.startAge + yi + 1 - cfg.startAge = yi + 1 := by omega
        refine ⟨le_refl _, by omega, ?_, ?_⟩
        · show ((yearState cfg yi r st).portfolioValues ++ _).getD _ 0 ≤ 0
          rw [hidx, getD_append_of_lt _ _ _ (by rw [hv1]; omega),
            yearState_portfolioValues, getD_append_of_le _ _ _ (by rw [h1]),
            h1, Nat.sub_self]
          simpa using hp1
        · intro i hi hgt
          rw [hidx] at hgt
          show ((yearState cfg yi r st).portfolioValues ++ _).getD _ 0 = 0
          rw [getD_append_of_le _ _ _ (by rw [hv1]; omega)]
          apply getD_replicate_zero
          rw [hv1]
          omega
    · -- no ruin: recurse on the inflation-compounded state
      have hih := ih (yi + 1)
        { yearState cfg yi r st with
            expenses := (yearState cfg yi r st).expenses * (1 + cfg.inflationRate),
            inflationMultiplier :=
              (yearState cfg yi r st).inflationMultiplier * (1 + cfg.inflationRate) }
        (by
          show (yearState cfg yi r st).portfolioValues.length = yi + 1 + 1
          rw [yearState_portfolioValues]
          simp [h1])
        (by
          show (yearState cfg yi r st).ages = _
          rw [yearState_ages, h2]
          conv_rhs => rw [List.range_succ]
          rw [List.map_append]
          simp [Nat.add_assoc])
        rfl
      have harith : yi + 1 + 1 + rest.length = yi + 1 + (rest.length + 1) := by omega
      refine ⟨?_, ?_, fun a ha => ?_⟩
      · rw [hih.1]
        omega
      · rw [hih.2.1, harith]
      · obtain ⟨hb1, hb2, hb3, hb4⟩ := hih.2.2 a ha
        exact ⟨by omega, by omega, hb3, fun i hi hgt => hb4 i (by omega) hgt⟩

/-! ## Claim C3 -/

/-- **C3** Trajectory length invariant: for every parameter bundle and return
sequence of length `years`, the output satisfies
`len(ages) = len(portfolio_values) = years + 1`, the ages increment by one
from `start_age` to the end even when ruin occurs early, and every portfolio
value recorded after the ruin age is `0`. -/
theorem C3_trajectory_length (cfg : SimConfig) (rs : List ℚ) :
    (runSimulation cfg rs).portfolioValues.length = rs.length + 1 ∧
    (runSimulation cfg rs).ages.length = rs.length + 1 ∧
    (runSimulation cfg rs).ages =
      (List.range (rs.length + 1)).map (fun i => cfg.startAge + i) ∧
    (∀ a, (runSimulation cfg rs).ruinAge = some a →
      ∀ i, i < rs.length + 1 → a - cfg.startAge < i →
        (runSimulation cfg rs).portfolioValues.getD i 0 = 0) := by
  have h := simLoop_shape cfg rs 0 (initialState cfg) (by simp [initialState])
    (by simp [initialState, List.range_succ]) rfl
  have harith : 0 + 1 + rs.length = rs.length + 1 := by omega
  refine ⟨?_, ?_, ?_, ?_⟩
  · show (simLoop cfg 0 rs (initialState cfg)).portfolioValues.length = rs.length + 1
    rw [h.1]
    omega
  · show (simLoop cfg 0 rs (initialState cfg)).ages.length = rs.length + 1
    rw [h.2.1]
    simp
    omega
  · show (simLoop cfg 0 rs (initialState cfg)).ages = _
    rw [h.2.1, harith]
  · intro a ha i hi hgt
    obtain ⟨hb1, hb2, hb3, hz⟩ := h.2.2 a ha
    exact hz i (by omega) hgt

/-- A concrete configuration ruining in the first of two years, for the C3
witness: start `10`, expenses `10`, zero returns. -/
def c3Cfg : SimConfig := ⟨10, 10, 0, 0, [], [], none, none⟩

/-- **C3 witness**: the run from portfolio `10` with expenses `10` over two
zero-return years ruins at age `1`, and the post-ruin value at index `2` is
the filled-in `0`. -/
theorem C3_trajectory_length_witness :
    (runSimulation c3Cfg [0, 0]).ruinAge = some 1 ∧
    (runSimulation c3Cfg [0, 0]).portfolioValues.getD 2 0 = 0 :=
  ⟨by norm_num [runSimulation, simLoop, yearState, initialState, hustleStep,
      spendingBlock, simulateSingleYear, getIncomeForAge, getWindfallForAge,
      applyWindfall, c3Cfg],
   (C3_trajectory_length c3Cfg [0, 0]).2.2.2 1
    (by norm_num [runSimulation, simLoop, yearState, initialState, hustleStep,
      spendingBlock, simulateSingleYear, getIncomeForAge, getWindfallForAge,
      applyWindfall, c3Cfg])
    2 (by norm_num) (by norm_num [c3Cfg])⟩

/-! ## Claim C10 -/

/-- A concrete configuration ruining in the last of two years: start `12`,
expenses `10`, zero returns (year 1: `2`, year 2: `-8`). -/
def c10LastYearCfg : SimConfig := ⟨12, 10, 0, 0, [], [], none, none⟩

/-- A concrete configuration ruining before the last year: start `10`,
expenses `10`, zero returns. -/
def c10EarlyCfg : SimConfig := ⟨10, 10, 0, 0, [], [], none, none⟩

/-- **C10** Ruin-year value is not clamped: whenever ruin occurs strictly
before the last simulated year, the final portfolio is the filled-in `0`;
but when ruin occurs in the last year the recorded (raw, post-withdrawal)
value can be strictly negative, as the concrete run from `12` with expenses
`10` over two zero-return years shows (`ruin_age = 2`, final value `-8`). -/
theorem C10_ruin_value_not_clamped :
    (∀ (cfg : SimConfig) (rs : List ℚ) (a : ℕ),
      (runSimulation cfg rs).ruinAge = some a →
      a < cfg.startAge + rs.length →
      (runSimulation cfg rs).finalPortfolio = 0) ∧
    ((runSimulation c10LastYearCfg [0, 0]).ruinAge = some 2 ∧
     (runSimulation c10LastYearCfg [0, 0]).finalPortfolio = -8) := by
  constructor
  · intro cfg rs a ha hlt
    have h := simLoop_shape cfg rs 0 (initialState cfg) (by simp [initialState])
      (by simp [initialState, List.range_succ]) rfl
    obtain ⟨hb1, hb2, hb3, hz⟩ := h.2.2 a ha
    have hlen : (simLoop cfg 0 rs (initialState cfg)).portfolioValues.length =
        rs.length + 1 := by
      rw [h.1]
      omega
    have hne : (simLoop cfg 0 rs (initialState cfg)).portfolioValues ≠ [] := by
      intro hnil
      rw [hnil] at hlen
      simp at hlen
    show (simLoop cfg 0 rs (initialState cfg)).portfolioValues.getLastD 0 = 0
    rw [getLastD_eq_getD_length_sub_one _ _ hne, hlen]
    exact hz rs.length (by omega) (by omega)
  · constructor <;>
      norm_num [runSimulation, simLoop, yearState, initialState, hustleStep,
        spendingBlock, simulateSingleYear, getIncomeForAge, getWindfallForAge,
        applyWindfall, c10LastYearCfg]

/-- **C10 witness**: the run from `10` with expenses `10` over two zero-return
years ruins at age `1`, before the last year (`0 + 2`), so its final
portfolio is `0`. -/
theorem C10_ruin_value_not_clamped_witness :
    ((runSimulation c10EarlyCfg [0, 0]).ruinAge = some 1 ∧
      1 < c10EarlyCfg.startAge + 2) ∧
    (runSimulation c10EarlyCfg [0, 0]).finalPortfolio = 0 :=
  ⟨⟨by norm_num [runSimulation, simLoop, yearState, initialState, hustleStep,
      spendingBlock, simulateSingleYear, getIncomeForAge, getWindfallForAge,
      applyWindfall, c10EarlyCfg], by norm_num [c10EarlyCfg]⟩,
   C10_ruin_value_not_clamped.1 c10EarlyCfg [0, 0] 1
    (by norm_num [runSimulation, simLoop, yearState, initialState, hustleStep,
      spendingBlock, simulateSingleYear, getIncomeForAge, getWindfallForAge,
      applyWindfall, c10EarlyCfg])
    (by norm_num [c10EarlyCfg])⟩

/-! ## Claim C1 -/

/-- With no hustle and no spending rules configured, the year body never
reads `startingPortfolio` (which only feeds the two sub-state-machine
thresholds). -/
lemma yearState_startIrrel (cfg : SimConfig) (x : ℚ)
    (hh : cfg.emergencyHustle = none) (hs : cfg.spendingRules = none)
    (yi : ℕ) (r : ℚ) (st : SimState) :
    yearState { cfg with startingPortfolio := x } yi r st = yearState cfg yi r st := by
  simp [yearState, hustleStep, spendingBlock, hh, hs]

/-- With no hustle and no spending rules, the whole loop is independent of
`startingPortfolio`. -/
lemma simLoop_startingPortfolio_irrelevant (cfg : SimConfig) (x : ℚ)
    (hh : cfg.emergencyHustle = none) (hs : cfg.spendingRules = none) :
    ∀ (rs : List ℚ) (yi : ℕ) (st : SimState),
      simLoop { cfg with startingPortfolio := x } yi rs st = simLoop cfg yi rs st := by
  intro rs
  induction rs with
  | nil => intro yi st; rfl
  | cons r rest ih =>
    intro yi st
    simp only [simLoop]
    rw [yearState_startIrrel cfg x hh hs]
    split
    · rfl
    · rw [ih]

/-- `applyWindfall` is monotone in the portfolio. -/
lemma applyWindfall_mono (p q w : ℚ) (h : p ≤ q) :
    applyWindfall p w ≤ applyWindfall q w := by
  unfold applyWindfall
  split <;> linarith

/-- `simulate_single_year` is monotone in the portfolio when the growth
factor `1 + return_rate` is nonnegative. -/
lemma simulateSingleYear_mono (p q r e i : ℚ) (hpq : p ≤ q) (hr : 0 ≤ 1 + r) :
    simulateSingleYear p r e i ≤ simulateSingleYear q r e i := by
  simp only [simulateSingleYear]
  have := mul_le_mul_of_nonneg_right hpq hr
  linarith

/-- With no spending rules, the year body leaves `expenses` unchanged. -/
lemma yearState_expenses_of_none (cfg : SimConfig) (hs : cfg.spendingRules = none)
    (yi : ℕ) (r : ℚ) (st : SimState) :
    (yearState cfg yi r st).expenses = st.expenses := by
  simp [yearState, spendingBlock, hs]

/-- The year body never touches the inflation multiplier (it is compounded in
the loop, after the ruin check). -/
lemma yearState_inflationMultiplier (cfg : SimConfig) (yi : ℕ) (r : ℚ) (st : SimState) :
    (yearState cfg yi r st).inflationMultiplier = st.inflationMultiplier := rfl

/-- With no hustle and no spending rules, the year body is monotone in the
portfolio (for growth factor `≥ 0`) between two states agreeing on expenses
and inflation. -/
lemma yearState_portfolio_mono (cfg : SimConfig)
    (hh : cfg.emergencyHustle = none) (hs : cfg.spendingRules = none)
    (yi : ℕ) (r : ℚ) (st st' : SimState)
    (he : st.expenses = st'.expenses)
    (hm : st.inflationMultiplier = st'.inflationMultiplier)
    (hp : st.portfolio ≤ st'.portfolio) (hr : 0 ≤ 1 + r) :
    (yearState cfg yi r st).portfolio ≤ (yearState cfg yi r st').portfolio := by
  simp only [yearState, hustleStep, spendingBlock, hh, hs, he, hm]
  exact simulateSingleYear_mono _ _ _ _ _
    (applyWindfall_mono _ _ _ hp) hr

/-- Core monotonicity of the loop with no hustle and no spending rules: from
two no-ruin states agreeing on expenses and inflation with ordered
portfolios, if the smaller-portfolio run survives then so does the larger,
with at least as large a last recorded value. -/
lemma simLoop_mono (cfg : SimConfig) (hh : cfg.emergencyHustle = none)
    (hs : cfg.spendingRules = none) :
    ∀ (rs : List ℚ), (∀ r ∈ rs, (0 : ℚ) ≤ 1 + r) →
    ∀ (yi : ℕ) (st st' : SimState),
      st.expenses = st'.expenses →
      st.inflationMultiplier = st'.inflationMultiplier →
      st.portfolio ≤ st'.portfolio →
      st.ruinAge = none → st'.ruinAge = none →
      st.portfolioValues.getLastD 0 = st.portfolio →
      st'.portfolioValues.getLastD 0 = st'.portfolio →
      (simLoop cfg yi rs st).ruinAge = none →
      ((simLoop cfg yi rs st').ruinAge = none ∧
       (simLoop cfg yi rs st).portfolioValues.getLastD 0 ≤
         (simLoop cfg yi rs st').portfolioValues.getLastD 0) := by
  intro rs
  induction rs with
  | nil =>
    intro hrs yi st st' he hm hp hna hna' hl hl' hrun
    refine ⟨hna', ?_⟩
    rw [show simLoop cfg yi [] st = st from rfl, show simLoop cfg yi [] st' = st' from rfl,
      hl, hl']
    exact hp
  | cons r rest ih =>
    intro hrs yi st st' he hm hp hna hna' hl hl' hrun
    have hr0 : (0 : ℚ) ≤ 1 + r := hrs r (by simp)
    have hrrest : ∀ x ∈ rest, (0 : ℚ) ≤ 1 + x := fun x hx => hrs x (by simp [hx])
    have hpmono := yearState_portfolio_mono cfg hh hs yi r st st' he hm hp hr0
    simp only [simLoop] at hrun ⊢
    by_cases hc : (yearState cfg yi r st).portfolio ≤ 0
    · rw [if_pos hc] at hrun
      simp at hrun
    · rw [if_neg hc] at hrun ⊢
      have hc' : ¬(yearState cfg yi r st').portfolio ≤ 0 := by
        push_neg at hc ⊢
        linarith
      rw [if_neg hc']
      refine ih hrrest (yi + 1) _ _ ?_ ?_ ?_ rfl rfl ?_ ?_ hrun
      · show (yearState cfg yi r st).expenses * (1 + cfg.inflationRate) =
          (yearState cfg yi r st').expenses * (1 + cfg.inflationRate)
        rw [yearState_expenses_of_none cfg hs, yearState_expenses_of_none cfg hs, he]
      · show (yearState cfg yi r st).inflationMultiplier * (1 + cfg.inflationRate) =
          (yearState cfg yi r st').inflationMultiplier * (1 + cfg.inflationRate)
        rw [yearState_inflationMultiplier, yearState_inflationMultiplier, hm]
      · exact hpmono
      · show (yearState cfg yi r st).portfolioValues.getLastD 0 =
          (yearState cfg yi r st).portfolio
        rw [yearState_portfolioValues, List.getLastD_concat]
      · show (yearState cfg yi r st').portfolioValues.getLastD 0 =
          (yearState cfg yi r st').portfolio
        rw [yearState_portfolioValues, List.getLastD_concat]

/-- **C1 (amended)** Monotonicity in the starting portfolio, for runs with no
emergency hustle and no spending rules configured and per-year returns
`≥ -1`: increasing `starting_portfolio` (all other parameters and the return
sequence fixed) never converts a survived trial into a ruined one, and when
the smaller-start trial survived, the final portfolio value never
decreases. -/
theorem C1_monotonicity (cfg : SimConfig) (s1 s2 : ℚ) (rs : List ℚ)
    (hh : cfg.emergencyHustle = none) (hs : cfg.spendingRules = none)
    (hr : ∀ r ∈ rs, (-1 : ℚ) ≤ r) (hle : s1 ≤ s2)
    (hsurv : (runSimulation { cfg with startingPortfolio := s1 } rs).survived = true) :
    (runSimulation { cfg with startingPortfolio := s2 } rs).survived = true ∧
    (runSimulation { cfg with startingPortfolio := s1 } rs).finalPortfolio ≤
      (runSimulation { cfg with startingPortfolio := s2 } rs).finalPortfolio := by
  have hr' : ∀ r ∈ rs, (0 : ℚ) ≤ 1 + r := fun r h => by linarith [hr r h]
  have hrun : (simLoop cfg 0 rs (initialState { cfg with startingPortfolio := s1 })).ruinAge =
      none := by
    have hiso : (runSimulation { cfg with startingPortfolio := s1 } rs).ruinAge.isNone =
        true := hsurv
    rw [show (runSimulation { cfg with startingPortfolio := s1 } rs).ruinAge =
        (simLoop { cfg with startingPortfolio := s1 } 0 rs
          (initialState { cfg with startingPortfolio := s1 })).ruinAge from rfl,
      simLoop_startingPortfolio_irrelevant cfg s1 hh hs] at hiso
    exact Option.isNone_iff_eq_none.mp hiso
  have hmono := simLoop_mono cfg hh hs rs hr' 0
    (initialState { cfg with startingPortfolio := s1 })
    (initialState { cfg with startingPortfolio := s2 })
    rfl rfl hle rfl rfl rfl rfl hrun
  constructor
  · show (simLoop { cfg with startingPortfolio := s2 } 0 rs
      (initialState { cfg with startingPortfolio := s2 })).ruinAge.isNone = true
    rw [simLoop_startingPortfolio_irrelevant cfg s2 hh hs, hmono.1]
    rfl
  · show (simLoop { cfg with startingPortfolio := s1 } 0 rs
        (initialState { cfg with startingPortfolio := s1 })).portfolioValues.getLastD 0 ≤
      (simLoop { cfg with startingPortfolio := s2 } 0 rs
        (initialState { cfg with startingPortfolio := s2 })).portfolioValues.getLastD 0
    rw [simLoop_startingPortfolio_irrelevant cfg s1 hh hs,
      simLoop_startingPortfolio_irrelevant cfg s2 hh hs]
    exact hmono.2

/-- The smaller-start configuration of the C1 counterexample: start `10`,
expenses `10`, no inflation, no income, no windfalls, no hustle, no spending
rules. -/
def c1SmallCfg : SimConfig := ⟨10, 10, 0, 0, [], [], none, none⟩

/-- The same bundle with only `starting_portfolio` raised to `15`. -/
def c1LargeCfg : SimConfig := ⟨15, 10, 0, 0, [], [], none, none⟩

/-- **C1 counterexample**: over the same two zero-return years, the start-`10`
run ruins in year one and its final value is the filled-in `0`, while the
start-`15` run limps to the last year and ends at the raw `-5`; so increasing
the starting portfolio strictly decreased the final portfolio value. -/
theorem C1_counterexample :
    c1LargeCfg = { c1SmallCfg with startingPortfolio := 15 } ∧
    c1SmallCfg.startingPortfolio ≤ c1LargeCfg.startingPortfolio ∧
    (runSimulation c1LargeCfg [0, 0]).finalPortfolio <
      (runSimulation c1SmallCfg [0, 0]).finalPortfolio := by
  refine ⟨rfl, by norm_num [c1SmallCfg, c1LargeCfg], ?_⟩
  norm_num [runSimulation, simLoop, yearState, initialState, hustleStep,
    spendingBlock, simulateSingleYear, getIncomeForAge, getWindfallForAge,
    applyWindfall, c1SmallCfg, c1LargeCfg]

/-- The base bundle of the C1 witness: expenses `1`, no inflation, no
income, no hustle, no spending rules (`startingPortfolio` is overridden). -/
def c1WitnessCfg : SimConfig := ⟨0, 1, 0, 0, [], [], none, none⟩

/-- **C1 witness**: from start `10` over one zero-return year the run
survives, and raising the start to `20` keeps it surviving with a final
portfolio at least as large. -/
theorem C1_monotonicity_witness :
    (runSimulation { c1WitnessCfg with startingPortfolio := 10 } [0]).survived = true ∧
    ((runSimulation { c1WitnessCfg with startingPortfolio := 20 } [0]).survived = true ∧
     (runSimulation { c1WitnessCfg with startingPortfolio := 10 } [0]).finalPortfolio ≤
       (runSimulation { c1WitnessCfg with startingPortfolio := 20 } [0]).finalPortfolio) :=
  ⟨by norm_num [runSimulation, simLoop, yearState, initialState, hustleStep,
      spendingBlock, simulateSingleYear, getIncomeForAge, getWindfallForAge,
      applyWindfall, c1WitnessCfg, SimulationResult.survived],
   C1_monotonicity c1WitnessCfg 10 20 [0] rfl rfl (by norm_num) (by norm_num)
    (by norm_num [runSimulation, simLoop, yearState, initialState, hustleStep,
      spendingBlock, simulateSingleYear, getIncomeForAge, getWindfallForAge,
      applyWindfall, c1WitnessCfg, SimulationResult.survived])⟩

/-! ## Claim C9 -/

/-- **C9** Hustle/spending-rules interleaving at the boundary (for an
already-triggered hustle, both machines enabled): the hustle block decrements
the countdown, the spending block runs the state machine exactly when the
countdown after this year's decrement is `0` and otherwise passes this year's
expenses through unchanged; in particular in the last hustle-income year
(countdown `1 → 0`) the extra income is still paid *and* the spending rules
are evaluated, while in earlier hustle years (countdown `≥ 2`) the income is
paid and the rules are skipped. -/
theorem C9_hustle_spending_interleaving (cfg : SimConfig) (h : EmergencyHustle)
    (rules : SpendingRules) (hh : cfg.emergencyHustle = some h)
    (hen : h.enabled = true) (hr : cfg.spendingRules = some rules)
    (ren : rules.enabled = true) (currentAge : ℕ) (p inflMult e : ℚ)
    (actAge : Option ℕ) (n : ℕ) (state : SpendState)
    (changes : List SpendChange) (red leanEv : Bool) :
    ((hustleStep cfg currentAge p inflMult true actAge n).remaining = n - 1) ∧
    ((hustleStep cfg currentAge p inflMult true actAge n).remaining = 0 →
      spendingBlock cfg currentAge
          (hustleStep cfg currentAge p inflMult true actAge n).remaining
          p inflMult state changes red leanEv e =
        ⟨spendingNewState rules cfg.startingPortfolio currentAge p state,
         if spendingNewState rules cfg.startingPortfolio currentAge p state ≠ state then
           changes ++ [⟨currentAge, state,
             spendingNewState rules cfg.startingPortfolio currentAge p state, p⟩]
         else changes,
         red ||
           (spendingNewState rules cfg.startingPortfolio currentAge p state ==
             SpendState.reduced) ||
           (spendingNewState rules cfg.startingPortfolio currentAge p state ==
             SpendState.leanMode),
         leanEv ||
           (spendingNewState rules cfg.startingPortfolio currentAge p state ==
             SpendState.leanMode),
         spendingExpenses rules cfg.annualExpenses inflMult
           (spendingNewState rules cfg.startingPortfolio currentAge p state)⟩) ∧
    ((hustleStep cfg currentAge p inflMult true actAge n).remaining ≠ 0 →
      spendingBlock cfg currentAge
          (hustleStep cfg currentAge p inflMult true actAge n).remaining
          p inflMult state changes red leanEv e =
        ⟨state, changes, red, leanEv, e⟩) ∧
    (n = 1 →
      (hustleStep cfg currentAge p inflMult true actAge n).extraIncome =
          h.extraIncome * inflMult ∧
        (hustleStep cfg currentAge p inflMult true actAge n).remaining = 0) ∧
    (2 ≤ n →
      (hustleStep cfg currentAge p inflMult true actAge n).extraIncome =
          h.extraIncome * inflMult ∧
        (hustleStep cfg currentAge p inflMult true actAge n).remaining ≠ 0) := by
  have hstep : hustleStep cfg currentAge p inflMult true actAge n =
      if 0 < n then ⟨h.extraIncome * inflMult, true, actAge, n - 1⟩
      else ⟨0, true, actAge, n⟩ := by
    have htrig : ¬(true = false ∧ currentAge ≤ h.triggerAgeMax ∧
        p < cfg.startingPortfolio * h.portfolioThreshold) := by simp
    simp only [hustleStep, hh, hen, if_true, if_neg htrig]
  refine ⟨?_, ?_, ?_, ?_, ?_⟩
  · rw [hstep]
    by_cases hn : 0 < n
    · rw [if_pos hn]
    · rw [if_neg hn]
      show n = n - 1
      omega
  · intro h0
    rw [h0]
    simp [spendingBlock, hr, ren]
  · intro hne
    simp [spendingBlock, hr, hne]
  · intro hn1
    subst hn1
    rw [hstep]
    norm_num
  · intro hn2
    rw [hstep]
    have : 0 < n := by omega
    simp [this]
    omega

/-- The default emergency-hustle bundle of `config.py`. -/
def c9Hustle : EmergencyHustle := ⟨true, 52, 7/10, 40000, 3⟩

/-- The default spending-rules bundle of `config.py`. -/
def c9Rules : SpendingRules := ⟨true, 1/2, 3/5, 25000, 17000, 60⟩

/-- A configuration with both sub-state-machines enabled. -/
def c9Cfg : SimConfig := ⟨1000000, 32500, 47, 0, [], [], some c9Hustle, some c9Rules⟩

/-- **C9 witness**: with a triggered hustle and countdown `2`, this year still
pays the hustle income and leaves a nonzero countdown (so the spending rules
are skipped). -/
theorem C9_hustle_spending_interleaving_witness :
    2 ≤ 2 ∧
    ((hustleStep c9Cfg 50 500000 1 true (some 49) 2).extraIncome =
        c9Hustle.extraIncome * 1 ∧
      (hustleStep c9Cfg 50 500000 1 true (some 49) 2).remaining ≠ 0) :=
  ⟨le_refl 2,
   (C9_hustle_spending_interleaving c9Cfg c9Hustle c9Rules rfl rfl rfl rfl
      50 500000 1 32500 (some 49) 2 SpendState.normal [] false
      false).2.2.2.2 (le_refl 2)⟩

/-! ## Claim C7 -/

/-- Tabulated rates (ages 47-110) lie between 3.8 and 685 per 1000 (in
tenths: 38 and 6850). -/
lemma tableTenths_bounds : ∀ a, a < 111 → 47 ≤ a →
    38 ≤ mortalityTableTenths a ∧ mortalityTableTenths a ≤ 6850 := by decide

/-- Up to age 95 the tabulated rate is at most 525 per 1000. -/
lemma tableTenths_le_5250 : ∀ a, a < 96 → mortalityTableTenths a ≤ 5250 := by decide

/-- For ages 96-99 the tabulated rate is at most 610 per 1000. -/
lemma tableTenths_le_6100 : ∀ a, a < 100 → 96 ≤ a → mortalityTableTenths a ≤ 6100 := by
  decide

/-- Below the minimum tabulated age the lookup clamps to the age-47 rate. -/
lemma getBaseQx_of_lt47 (age : ℕ) (h : age < 47) : getBaseQx age = 38 / 10 := by
  unfold getBaseQx FINNISH_MALE_MORTALITY
  rw [if_neg (by omega)]
  show (if age < 47 then ((mortalityTableTenths 47 : ℚ) / 10) else 500) = 38 / 10
  rw [if_pos h, show mortalityTableTenths 47 = 38 from rfl]
  norm_num

/-- Above the maximum tabulated age the lookup falls back to 500 per 1000. -/
lemma getBaseQx_of_gt110 (age : ℕ) (h : 110 < age) : getBaseQx age = 500 := by
  unfold getBaseQx FINNISH_MALE_MORTALITY
  rw [if_neg (by omega)]
  show (if age < 47 then ((mortalityTableTenths 47 : ℚ) / 10) else 500) = 500
  rw [if_neg (by omega)]

/-- Inside the table the lookup returns the tabulated value. -/
lemma getBaseQx_in_table (age : ℕ) (h47 : 47 ≤ age) (h110 : age ≤ 110) :
    getBaseQx age = (mortalityTableTenths age : ℚ) / 10 := by
  unfold getBaseQx FINNISH_MALE_MORTALITY
  rw [if_pos ⟨h47, h110⟩]

/-- The base rate is always strictly positive. -/
lemma getBaseQx_pos (age : ℕ) : 0 < getBaseQx age := by
  by_cases h1 : age < 47
  · rw [getBaseQx_of_lt47 age h1]
    norm_num
  · by_cases h2 : age ≤ 110
    · rw [getBaseQx_in_table age (by omega) h2]
      have h38 := (tableTenths_bounds age (by omega) (by omega)).1
      have : (38 : ℚ) ≤ (mortalityTableTenths age : ℚ) := by exact_mod_cast h38
      positivity
    · rw [getBaseQx_of_gt110 age (by omega)]
      norm_num

/-- The base rate never exceeds 685 per 1000. -/
lemma getBaseQx_le_685 (age : ℕ) : getBaseQx age ≤ 685 := by
  by_cases h1 : age < 47
  · rw [getBaseQx_of_lt47 age h1]
    norm_num
  · by_cases h2 : age ≤ 110
    · rw [getBaseQx_in_table age (by omega) h2]
      have hb := (tableTenths_bounds age (by omega) (by omega)).2
      rw [div_le_iff (by norm_num : (0:ℚ) < 10)]
      exact_mod_cast by omega
    · rw [getBaseQx_of_gt110 age (by omega)]
      norm_num

/-- Up to age 95 the base rate is at most 525 per 1000. -/
lemma getBaseQx_le_525 (age : ℕ) (hage : age ≤ 95) : getBaseQx age ≤ 525 := by
  by_cases h1 : age < 47
  · rw [getBaseQx_of_lt47 age h1]
    norm_num
  · rw [getBaseQx_in_table age (by omega) (by omega)]
    have hb := tableTenths_le_5250 age (by omega)
    rw [div_le_iff (by norm_num : (0:ℚ) < 10)]
    exact_mod_cast by omega

/-- For ages 96-99 the base rate is at most 610 per 1000. -/
lemma getBaseQx_le_610 (age : ℕ) (h96 : 96 ≤ age) (h99 : age ≤ 99) :
    getBaseQx age ≤ 610 := by
  rw [getBaseQx_in_table age (by omega) (by omega)]
  have hb := tableTenths_le_6100 age (by omega) h96
  rw [div_le_iff (by norm_num : (0:ℚ) < 10)]
  exact_mod_cast by omega

/-- The health-class lookup yields one of the three tabulated parameter
bundles (unknown classes fall back to the `average` bundle). -/
lemma HEALTH_CLASS_PARAMS_cases (s : String) :
    HEALTH_CLASS_PARAMS s = ⟨3/10, 1, 100⟩ ∨ HEALTH_CLASS_PARAMS s = ⟨1, 1, 100⟩ ∨
      HEALTH_CLASS_PARAMS s = ⟨3/2, 1, 100⟩ := by
  unfold HEALTH_CLASS_PARAMS
  split
  · exact Or.inl rfl
  · split
    · exact Or.inr (Or.inr rfl)
    · exact Or.inr (Or.inl rfl)

/-- Health-adjusted mortality of the reference table is strictly between 0
and 1000 per 1000, for every age and health class: the mortality advantage
ratio shrinks as the base rate grows, keeping the product below certainty. -/
lemma healthAdjusted_bounds (age : ℕ) (hc : String) :
    0 < healthAdjustedMortality age (getBaseQx age) hc ∧
      healthAdjustedMortality age (getBaseQx age) hc < 1000 := by
  have hb0 := getBaseQx_pos age
  have hb685 := getBaseQx_le_685 age
  unfold healthAdjustedMortality
  rcases HEALTH_CLASS_PARAMS_cases hc with hP | hP | hP <;> rw [hP] <;> dsimp only <;>
    by_cases h45 : age ≤ 45
  · -- excellent, age ≤ 45: ratio = 3/10
    rw [if_pos h45]
    constructor
    · positivity
    · nlinarith
  · by_cases h100 : (100 : ℕ) ≤ age
    · -- excellent, converged: ratio = 1
      rw [if_neg h45, if_pos h100]
      constructor
      · linarith
      · linarith
    · -- excellent, interpolation zone
      rw [if_neg h45, if_neg h100]
      have ha46 : (46 : ℚ) ≤ (age : ℚ) := by exact_mod_cast by omega
      have ha99 : (age : ℚ) ≤ 99 := by exact_mod_cast by omega
      have hx0 : (0 : ℚ) < ((age : ℚ) - 45) / (((100 : ℕ) : ℚ) - 45) := by
        push_cast
        apply div_pos <;> linarith
      have hx1 : ((age : ℚ) - 45) / (((100 : ℕ) : ℚ) - 45) ≤ 1 := by
        push_cast
        rw [div_le_one (by norm_num)]
        linarith
      constructor
      · apply mul_pos hb0
        nlinarith
      · nlinarith
  · -- average, age ≤ 45: ratio = 1
    rw [if_pos h45]
    constructor
    · linarith
    · linarith
  · by_cases h100 : (100 : ℕ) ≤ age
    · rw [if_neg h45, if_pos h100]
      constructor
      · linarith
      · linarith
    · -- average, interpolation zone: ratio = 1 + 0·x = 1
      rw [if_neg h45, if_neg h100]
      have hsimp : (1 : ℚ) + (1 - 1) *
          (((age : ℚ) - (45 : ℕ)) / (((100 : ℕ) : ℚ) - (45 : ℕ))) = 1 := by ring
      rw [hsimp]
      constructor
      · linarith
      · linarith
  · -- impaired, age ≤ 45: base is the clamped 3.8, ratio = 3/2
    rw [if_pos h45, getBaseQx_of_lt47 age (by omega)]
    norm_num
  · by_cases h100 : (100 : ℕ) ≤ age
    · rw [if_neg h45, if_pos h100]
      constructor
      · linarith
      · linarith
    · -- impaired, interpolation zone: ratio = 3/2 - x/2 ∈ (1, 3/2)
      rw [if_neg h45, if_neg h100]
      have ha46 : (46 : ℚ) ≤ (age : ℚ) := by exact_mod_cast by omega
      have ha99 : (age : ℚ) ≤ 99 := by exact_mod_cast by omega
      have hx0 : (0 : ℚ) < ((age : ℚ) - 45) / (((100 : ℕ) : ℚ) - 45) := by
        push_cast
        apply div_pos <;> linarith
      have hx1 : ((age : ℚ) - 45) / (((100 : ℕ) : ℚ) - 45) ≤ 1 := by
        push_cast
        rw [div_le_one (by norm_num)]
        linarith
      have hratio : (3 / 2 : ℚ) + (1 - 3 / 2) *
          (((age : ℚ) - (45 : ℕ)) / (((100 : ℕ) : ℚ) - (45 : ℕ))) ≤ 3 / 2 := by
        push_cast
        nlinarith
      have hratio0 : (0 : ℚ) < 3 / 2 + (1 - 3 / 2) *
          (((age : ℚ) - (45 : ℕ)) / (((100 : ℕ) : ℚ) - (45 : ℕ))) := by
        push_cast
        nlinarith
      constructor
      · exact mul_pos hb0 hratio0
      · by_cases h95 : age ≤ 95
        · have hb525 := getBaseQx_le_525 age h95
          nlinarith
        · -- ages 96-99: tighter base bound and ratio ≤ 114/110
          have hb610 := getBaseQx_le_610 age (by omega) (by omega)
          have ha96 : (96 : ℚ) ≤ (age : ℚ) := by exact_mod_cast by omega
          have hx51 : (51 / 55 : ℚ) ≤ ((age : ℚ) - 45) / (((100 : ℕ) : ℚ) - 45) := by
            push_cast
            rw [div_le_div_iff (by norm_num) (by norm_num)]
            linarith
          have hratio96 : (3 / 2 : ℚ) + (1 - 3 / 2) *
              (((age : ℚ) - (45 : ℕ)) / (((100 : ℕ) : ℚ) - (45 : ℕ))) ≤ 114 / 110 := by
            push_cast
            nlinarith
          nlinarith

/-- The age-bucketed base improvement rate is in `(0, 0.015]`. -/
lemma baseImprovementRate_bounds (age : ℕ) :
    0 < baseImprovementRate age ∧ baseImprovementRate age ≤ 15 / 1000 := by
  unfold baseImprovementRate AGE_IMPROVEMENT_RATES
  by_cases h1 : age < 65
  · simp [List.find?, h1]
    try norm_num
  · by_cases h2 : age < 85
    · have h65 : 65 ≤ age := by omega
      simp [List.find?, h1, h2, h65]
      try norm_num
    · by_cases h3 : age < 100
      · have h85 : 85 ≤ age := by omega
        simp [List.find?, h1, h2, h3, h85]
        try norm_num
      · by_cases h4 : age < 150
        · have h100 : 100 ≤ age := by omega
          simp [List.find?, h1, h2, h3, h4, h100]
          try norm_num
        · simp [List.find?, h1, h2, h3, h4]
          try norm_num

/-- The tech-scenario multiplier is in `(0, 1.5]` (unknown scenarios fall
back to `moderate`'s `1`). -/
lemma rateMultiplier_bounds (s : String) :
    0 < (TECH_SCENARIO_PARAMS s).rateMultiplier ∧
      (TECH_SCENARIO_PARAMS s).rateMultiplier ≤ 3 / 2 := by
  unfold TECH_SCENARIO_PARAMS
  split
  · norm_num
  · split <;> norm_num

/-- The technology-improvement multiplier is in `(0, 1]`. -/
lemma improvementFactor_bounds (age y : ℕ) (ts : String) :
    0 < mortalityImprovementFactor age y ts ∧ mortalityImprovementFactor age y ts ≤ 1 := by
  unfold mortalityImprovementFactor
  split
  · norm_num
  · obtain ⟨hb0, hbm⟩ := baseImprovementRate_bounds age
    obtain ⟨hm0, hmm⟩ := rateMultiplier_bounds ts
    have hrate0 : 0 < baseImprovementRate age * (TECH_SCENARIO_PARAMS ts).rateMultiplier :=
      mul_pos hb0 hm0
    have hrate1 : baseImprovementRate age * (TECH_SCENARIO_PARAMS ts).rateMultiplier ≤
        (15 / 1000) * (3 / 2) := by nlinarith
    constructor
    · apply pow_pos
      linarith
    · apply pow_le_one₀ <;> linarith

/-- The fully adjusted per-year death rate is strictly between 0 and 1000
per 1000, for every age, health class, tech scenario and elapsed time. -/
lemma getQx_bounds (age : ℕ) (hc ts : String) (y : ℕ) :
    0 < getQx age hc ts y ∧ getQx age hc ts y < 1000 := by
  obtain ⟨hh0, hh1⟩ := healthAdjusted_bounds age hc
  obtain ⟨hf0, hf1⟩ := improvementFactor_bounds age y ts
  have hq : getQx age hc ts y =
      healthAdjustedMortality age (getBaseQx age) hc *
        mortalityImprovementFactor age y ts := rfl
  rw [hq]
  constructor
  · exact mul_pos hh0 hf0
  · nlinarith

/-- Each per-year survival factor `1 - qx/1000` is strictly between 0
and 1. -/
lemma survFactor_bounds (age : ℕ) (hc ts : String) (y : ℕ) :
    0 < 1 - getQx age hc ts y / 1000 ∧ 1 - getQx age hc ts y / 1000 < 1 := by
  obtain ⟨hq0, hq1⟩ := getQx_bounds age hc ts y
  constructor
  · have : getQx age hc ts y / 1000 < 1 := by
      rw [div_lt_one (by norm_num)]
      linarith
    linarith
  · have : 0 < getQx age hc ts y / 1000 := by positivity
    linarith

/-- Cumulative survival probability is always strictly positive. -/
lemma calculateSurvivalProbability_pos (s e : ℕ) (hc ts : String) :
    0 < calculateSurvivalProbability s e hc ts := by
  unfold calculateSurvivalProbability
  apply List.prod_pos
  intro x hx
  simp only [List.mem_map] at hx
  obtain ⟨k, hk, rfl⟩ := hx
  exact (survFactor_bounds (s + k) hc ts k).1

/-- **C7** Cumulative survival probability is strictly decreasing in the end
age: extending the horizon by one year multiplies the survival probability by
a factor strictly less than one, since every per-year adjusted death
probability lies strictly between 0 and 1. -/
theorem C7_survival_strictly_decreasing (s e : ℕ) (hc ts : String) (hse : s ≤ e) :
    calculateSurvivalProbability s (e + 1) hc ts <
      calculateSurvivalProbability s e hc ts := by
  have key : calculateSurvivalProbability s (e + 1) hc ts =
      calculateSurvivalProbability s e hc ts *
        (1 - getQx (s + (e + 1 - s)) hc ts (e + 1 - s) / 1000) := by
    unfold calculateSurvivalProbability
    rw [show e + 1 + 1 - s = (e + 1 - s) + 1 from by omega, List.range_succ,
      List.map_append, List.prod_append]
    simp
  rw [key]
  exact mul_lt_of_lt_one_right (calculateSurvivalProbability_pos s e hc ts)
    (survFactor_bounds (s + (e + 1 - s)) hc ts (e + 1 - s)).2

/-- **C7 witness**: surviving from 47 through 48 is strictly less likely than
surviving through 47, for the baseline health class and tech scenario. -/
theorem C7_survival_strictly_decreasing_witness :
    47 ≤ 47 ∧
    calculateSurvivalProbability 47 48 "average" "moderate" <
      calculateSurvivalProbability 47 47 "average" "moderate" :=
  ⟨le_refl 47, C7_survival_strictly_decreasing 47 47 "average" "moderate" (le_refl 47)⟩
